import Mathlib

/-!
Shallow embedding of the `mifi-gps` program (`main.go`): a GPS ingestion
pipeline that parses NMEA sentences from a MiFi device into a shared
`MifiNMEAData` store, periodically samples the store into a queue of SQL
insert operations, and periodically flushes that queue to Postgres inside
a transaction.

Mutex-guarded mutation in the Go source is modelled as explicit state
passing: each Go closure over shared state becomes a pure function from
the old state to the new state.  Go `float64` values are carried through
the pipeline without arithmetic, so they are modelled as `Rat`.  External
collaborators (the `go-nmea` parser, `net.Conn`, `database/sql`) are
modelled as function parameters supplying their observable results.
-/

namespace MifiGps

/-- Result of Go's `time.Parse` on layout `02/01/06T15:04:05.9999`:
a calendar timestamp with nanosecond fraction. -/
structure GoTime where
  year : Nat
  month : Nat
  day : Nat
  hour : Nat
  minute : Nat
  second : Nat
  nsec : Nat
deriving DecidableEq, Repr

/-- Two decimal digits, as consumed by the `02`, `01`, `06`, `15`, `04`,
`05` components of the Go layout string. -/
def parseTwoDigitNum (cs : List Char) : Option (Nat × List Char) :=
  match cs with
  | a :: b :: rest =>
    if a.isDigit ∧ b.isDigit then
      some (10 * (a.toNat - 48) + (b.toNat - 48), rest)
    else none
  | _ => none

/-- Consume one expected literal layout character (`/`, `T`, `:`). -/
def expectChar (c : Char) (cs : List Char) : Option (List Char) :=
  match cs with
  | a :: rest => if a = c then some rest else none
  | [] => none

/-- Digits to a natural number, most significant first. -/
def digitsToNat (ds : List Char) : Nat :=
  ds.foldl (fun a c => 10 * a + (c.toNat - 48)) 0

/-- The optional fractional-second component of the Go layout `.9999`:
if the input continues with `.` and a digit, Go consumes the dot and up
to nine digits and scales them to nanoseconds; otherwise it consumes
nothing (any leftover text then fails the overall parse). -/
def parseFracSecond (cs : List Char) : Nat × List Char :=
  match cs with
  | '.' :: d :: rest =>
    if d.isDigit then
      let digits := ((d :: rest).takeWhile Char.isDigit).take 9
      (digitsToNat digits * 10 ^ (9 - digits.length), (d :: rest).drop digits.length)
    else (0, cs)
  | _ => (0, cs)

/-- Whether `y` is a Gregorian leap year (Go `isLeap`). -/
def isLeapYear (y : Nat) : Bool := y % 4 = 0 ∧ (y % 100 ≠ 0 ∨ y % 400 = 0)

/-- Days in month `m` of year `y`, used by Go's date validation. -/
def daysIn (y m : Nat) : Nat :=
  if m = 2 then (if isLeapYear y then 29 else 28)
  else if m = 4 ∨ m = 6 ∨ m = 9 ∨ m = 11 then 30
  else 31

/-- Model of `time.Parse("02/01/06T15:04:05.9999", s)` as used in
`queueLocation`: day/month/two-digit year (69–99 map to 19xx, 00–68 to
20xx, as in Go), then hour/minute/second with an optional fraction, with
Go's range validation.  Returns `none` where Go returns a parse error. -/
def timeParseRMCLayout (s : String) : Option GoTime := do
  let cs := s.toList
  let (dd, cs) ← parseTwoDigitNum cs
  let cs ← expectChar '/' cs
  let (mm, cs) ← parseTwoDigitNum cs
  let cs ← expectChar '/' cs
  let (yy, cs) ← parseTwoDigitNum cs
  let cs ← expectChar 'T' cs
  let (hh, cs) ← parseTwoDigitNum cs
  let cs ← expectChar ':' cs
  let (mi, cs) ← parseTwoDigitNum cs
  let cs ← expectChar ':' cs
  let (ss, cs) ← parseTwoDigitNum cs
  let (ns, cs) := parseFracSecond cs
  if cs ≠ [] then none
  else
    let year := if yy ≥ 69 then 1900 + yy else 2000 + yy
    if mm < 1 ∨ mm > 12 then none
    else if dd < 1 ∨ dd > daysIn year mm then none
    else if hh ≥ 24 ∨ mi ≥ 60 ∨ ss ≥ 60 then none
    else some ⟨year, mm, dd, hh, mi, ss, ns⟩

/-- The fields of `nmea.RMC` the program reads.  `date` and `time` hold
the strings produced by `Date.String()` (`"DD/MM/YY"`) and
`Time.String()` (`"HH:MM:SS.ffff"`). -/
structure RMC where
  date : String
  time : String
  latitude : Rat
  longitude : Rat
  speed : Rat
  course : Rat
deriving DecidableEq, Repr

/-- The fields of `nmea.GGA` the program reads (position, fix quality,
altitude). -/
structure GGA where
  latitude : Rat
  longitude : Rat
  fixQuality : String
  altitude : Rat
deriving DecidableEq, Repr

/-- The dilution-of-precision fields of `nmea.GSA`. -/
structure GSA where
  pdop : Rat
  hdop : Rat
  vdop : Rat
deriving DecidableEq, Repr

/-- The satellites-in-view summary field of `nmea.GSV`. -/
structure GSV where
  numberSVsInView : Nat
deriving DecidableEq, Repr

/-- The track/speed fields of `nmea.VTG`. -/
structure VTG where
  trueTrack : Rat
  groundSpeedKnots : Rat
deriving DecidableEq, Repr

/-- One decoded fragment of the five sentence variants the `switch` in
`parseGPS` accepts. -/
inductive Fragment where
  | rmc : RMC → Fragment
  | gga : GGA → Fragment
  | gsa : GSA → Fragment
  | gsv : GSV → Fragment
  | vtg : VTG → Fragment
deriving DecidableEq, Repr

/-- Result of a successful `nmea.Parse`: either one of the five handled
variants, or some other sentence type (hitting the `default` arm of the
`switch`, which carries `s.DataType()`). -/
inductive Sentence where
  | frag : Fragment → Sentence
  | other : String → Sentence
deriving DecidableEq, Repr

/-- The shared fix store `MifiNMEAData`: one optional slot per sentence
variant, all `nil` before initialization.  The `sync.Mutex` serializing
access in Go is modelled by sequential state passing. -/
structure MifiNMEAData where
  RMC : Option RMC
  GGA : Option GGA
  GSA : Option GSA
  GSV : Option GSV
  VTG : Option VTG
deriving DecidableEq, Repr

/-- The zero value `MifiNMEAData{}` created in `main`. -/
def emptyData : MifiNMEAData := ⟨none, none, none, none, none⟩

/-- `(*MifiNMEAData).Clear`: sets all five slots to `nil` under the lock. -/
def MifiNMEAData.Clear (_d : MifiNMEAData) : MifiNMEAData :=
  ⟨none, none, none, none, none⟩

/-- A consistent read of all five slots taken under the lock (the struct
copy observers make while holding the mutex). -/
def snapshot (d : MifiNMEAData) : MifiNMEAData :=
  ⟨d.RMC, d.GGA, d.GSA, d.GSV, d.VTG⟩

/-- The slot assignment performed by the matching `case` arm of the
`switch s.DataType()` in `parseGPS`. -/
def updateStore (d : MifiNMEAData) : Fragment → MifiNMEAData
  | .rmc m => { d with RMC := some m }
  | .gga m => { d with GGA := some m }
  | .gsa m => { d with GSA := some m }
  | .gsv m => { d with GSV := some m }
  | .vtg m => { d with VTG := some m }

/-- `parseGPS`: feed one line to `nmea.Parse` (modelled by the parameter
`p`), and on success store the decoded fragment; a parse failure or an
unhandled sentence type yields an error and leaves the store untouched. -/
def parseGPS (p : String → Except String Sentence) (d : MifiNMEAData)
    (line : String) : Except String MifiNMEAData :=
  match p line with
  | .error e => .error ("failed to parse nmea line: " ++ e)
  | .ok (.frag f) => .ok (updateStore d f)
  | .ok (.other t) => .error ("unexpected nmea data type: " ++ t)

/-- A sequence of fragment updates applied to the store in arrival order. -/
def applyUpdates (d : MifiNMEAData) (us : List Fragment) : MifiNMEAData :=
  us.foldl updateStore d

/-- Keep the newer observation if there is one. -/
def orLatest (a b : Option α) : Option α :=
  match a with
  | some x => some x
  | none => b

/-- The value of the last update in the sequence that matches the variant
projected by `get`, if any. -/
def lastOf (get : Fragment → Option α) : List Fragment → Option α
  | [] => none
  | u :: us => orLatest (lastOf get us) (get u)

/-- Projection of the Position/Velocity variant. -/
def fragRMC : Fragment → Option RMC
  | .rmc m => some m
  | _ => none

/-- Projection of the Altitude Fix variant. -/
def fragGGA : Fragment → Option GGA
  | .gga m => some m
  | _ => none

/-- Projection of the Satellite Geometry variant. -/
def fragGSA : Fragment → Option GSA
  | .gsa m => some m
  | _ => none

/-- Projection of the Satellites-in-View variant. -/
def fragGSV : Fragment → Option GSV
  | .gsv m => some m
  | _ => none

/-- Projection of the Track-Made-Good variant. -/
def fragVTG : Fragment → Option VTG
  | .vtg m => some m
  | _ => none

/-- `bytes.Trim(line, "\x00")`: strip leading and trailing NUL bytes. -/
def trimNulls (s : String) : String :=
  (((s.toList.dropWhile (· = '\x00')).reverse.dropWhile (· = '\x00')).reverse).asString

/-- How the connection ends once the modelled lines are exhausted:
`reader.ReadLine` reports either `io.EOF` or some other read error. -/
inductive StreamEnd where
  | eof
  | readErr : String → StreamEnd
deriving DecidableEq, Repr

/-- The read loop of `getGPS` over the lines delivered by the connection:
trim NUL padding, skip empty lines, feed the rest to `parseGPS`; a parse
error returns immediately (wrapped), otherwise the loop runs until the
connection-level event `e`, which also returns an error (`io.EOF` becomes
"reached end of connection to mifi").  The result is the final store and
the error `getGPS` returns (the loop has no non-error exit). -/
def getGPSLoop (p : String → Except String Sentence) (d : MifiNMEAData) :
    List String → StreamEnd → MifiNMEAData × String
  | [], .eof => (d, "reached end of connection to mifi")
  | [], .readErr e => (d, e)
  | l :: ls, e =>
    let t := trimNulls l
    if t = "" then getGPSLoop p d ls e
    else
      match parseGPS p d t with
      | .ok d' => getGPSLoop p d' ls e
      | .error msg => (d, "failed to parse gps line: " ++ msg)

/-- One iteration of the reconnect goroutine's body: run `getGPS`; since
it always returns an error, log and `data.Clear()` (the fixed one-minute
cooldown sleep follows unconditionally before the next attempt). -/
def streamCycle (p : String → Except String Sentence) (d : MifiNMEAData)
    (lines : List String) (e : StreamEnd) : MifiNMEAData :=
  ((getGPSLoop p d lines e).1).Clear

/-- One bound SQL argument of a queued insert.  The wall-clock `time.Now()`
is modelled as a `Nat` tick; the `ST_GeographyFromText` string
`"SRID=4326;POINTZ(%f %f %f)"` is modelled by the three formatted values
in order (longitude, latitude, altitude). -/
inductive SqlArg where
  | timeArg : Nat → SqlArg
  | tsArg : GoTime → SqlArg
  | geomArg : Rat → Rat → Rat → SqlArg
  | ratArg : Rat → SqlArg
deriving DecidableEq, Repr

/-- `queuedOp`: one pending insert, its SQL text and bound arguments. -/
structure queuedOp where
  query : String
  args : List SqlArg
deriving DecidableEq, Repr

/-- The insert statement text used by `queueLocation`. -/
def insertQuery : String :=
  "INSERT INTO gps_logs(logged_at, gps_timestamp, gps_geometry, gps_speed, gps_course) VALUES($1, $2, ST_GeographyFromText($3), $4, $5)"

/-- The program's own `max` helper over Go `int`s. -/
def max (a b : Int) : Int := if a > b then a else b

/-- Error results of one sampling cycle. -/
inductive SampleErr where
  | noDataToLog
  | parseErr : String → SampleErr
deriving DecidableEq, Repr

/-- The `queueLocation` closure: under the lock, skip with `ErrNoDataToLog`
unless both `RMC` and `GGA` are present; combine the RMC date and time
strings and parse them; append one insert op; then apply the slice
`queue = queue[:max(len(queue)-100, len(queue))]`.  Returns the new queue
and the error result (`now` models `time.Now()`). -/
def queueLocation (now : Nat) (d : MifiNMEAData) (queue : List queuedOp) :
    List queuedOp × Option SampleErr :=
  match d.RMC, d.GGA with
  | some rmc, some gga =>
    match timeParseRMCLayout (rmc.date ++ "T" ++ rmc.time) with
    | none => (queue, some (.parseErr "failed to parse RMC date time"))
    | some t =>
      let q := queue ++ [⟨insertQuery,
        [SqlArg.timeArg now, SqlArg.tsArg t,
         SqlArg.geomArg rmc.longitude rmc.latitude gga.altitude,
         SqlArg.ratArg rmc.speed, SqlArg.ratArg rmc.course]⟩]
      (q.take (max ((q.length : Int) - 100) (q.length : Int)).toNat, none)
  | none, _ => (queue, some .noDataToLog)
  | _, none => (queue, some .noDataToLog)

/-- Observable behaviour of the `database/sql` transaction during one
flush: whether `Begin` succeeds, whether the `i`-th `Exec` of the
transaction succeeds, and whether `Commit` succeeds. -/
structure DBBehavior where
  beginOk : Bool
  execOk : Nat → Bool
  commitOk : Bool

/-- Which step of `pushToDB` failed. -/
inductive FlushErr where
  | beginFailed
  | execFailed
  | commitFailed
deriving DecidableEq, Repr

/-- The `for len(queue) != 0` loop of `pushToDB`: exec the head op; on
success pop it (`queue = queue[1:]`) and continue with the next exec
index; on failure return at once, the failed op still at the head.
Returns (remaining queue, ops passed to `tx.Exec` in order, success). -/
def execLoop (ex : Nat → Bool) : Nat → List queuedOp →
    List queuedOp × List queuedOp × Bool
  | _, [] => ([], [], true)
  | i, op :: rest =>
    if ex i then
      let r := execLoop ex (i + 1) rest
      (r.1, op :: r.2.1, r.2.2)
    else (op :: rest, [op], false)

/-- Outcome of one flush cycle: the queue after the cycle, the inserts
issued to the transaction in order, and the error returned, if any. -/
structure FlushResult where
  queue : List queuedOp
  issued : List queuedOp
  err : Option FlushErr
deriving DecidableEq, Repr

/-- The `pushToDB` closure: begin a transaction, run the exec loop over
the queue, then commit; any failure returns the corresponding error with
the queue as the loop left it (no rollback restores popped entries). -/
def pushToDB (db : DBBehavior) (queue : List queuedOp) : FlushResult :=
  if db.beginOk then
    let r := execLoop db.execOk 0 queue
    if r.2.2 then
      if db.commitOk then ⟨r.1, r.2.1, none⟩
      else ⟨r.1, r.2.1, some .commitFailed⟩
    else ⟨r.1, r.2.1, some .execFailed⟩
  else ⟨queue, [], some .beginFailed⟩

/-- The environment checks at the top of `main`, given the values of
`MIFI_GPS_DBCONNSTR` and `MIFI_GPS_MAPSAPIKEY` (empty string for an
absent variable).  Returns the panic message if the process refuses to
start, `none` if startup proceeds.  Both conditions test `connStr`,
exactly as in the source. -/
def startupCheck (connStr mapsAPIKey : String) : Option String :=
  if connStr = "" then some "missing db connection string in env var MIFI_GPS_DBCONNSTR"
  else if connStr = "" then some "missing maps api key in env var MIFI_GPS_MAPSAPIKEY"
  else none

/-- The fabricated response preamble of `Http0_9ConnWrapper.Read`, as a
byte (character) sequence. -/
def http09Response : List Char :=
  "HTTP/1.1 200 OK\r\nConnection: keep-alive\r\nContent-Type: text/plain\r\n\r\n".toList

/-- Go's builtin `copy(dst, src)`: overwrite the first
`min (len dst) (len src)` positions of `dst` with the prefix of `src`. -/
def goCopy (dst src : List Char) : List Char :=
  src.take (min dst.length src.length) ++ dst.drop (min dst.length src.length)

/-- The wrapper's only state: whether a read has happened yet. -/
structure Http0_9ConnWrapper where
  haveReadAny : Bool
deriving DecidableEq, Repr

/-- `Http0_9ConnWrapper.Read`: on the first read, copy the fabricated
preamble into the caller's buffer and return `len(response)` regardless
of the buffer's length; afterwards delegate to the underlying connection
(modelled by `underlying`, taking the buffer to the filled buffer and
the reported count).  Returns the new wrapper state, the buffer after
the call, and the reported byte count. -/
def connRead (underlying : List Char → List Char × Nat)
    (c : Http0_9ConnWrapper) (b : List Char) :
    Http0_9ConnWrapper × List Char × Nat :=
  if c.haveReadAny then
    let r := underlying b
    (c, r.1, r.2)
  else
    (⟨true⟩, goCopy b http09Response, http09Response.length)

/-- An underlying connection that reports nothing read (test fixture). -/
def trivialConn : List Char → List Char × Nat := fun b => (b, 0)

/-- A concrete Position/Velocity fragment (test fixture). -/
def rmc0 : RMC := ⟨"15/06/24", "10:30:00.00", 1, 2, 3, 4⟩

/-- A concrete Altitude Fix fragment (test fixture). -/
def gga0 : GGA := ⟨1, 2, "1", 12.5⟩

/-- A concrete Satellite Geometry fragment (test fixture). -/
def gsa0 : GSA := ⟨1, 1, 1⟩

/-- A store holding both fragments `queueLocation` needs (test fixture). -/
def goodData : MifiNMEAData := ⟨some rmc0, some gga0, none, none, none⟩

/-- A store holding only a Satellite Geometry fragment (test fixture). -/
def gsaOnlyData : MifiNMEAData := ⟨none, none, some gsa0, none, none⟩

/-- Distinct queued inserts for flush tests (test fixture). -/
def opFix (k : Nat) : queuedOp := ⟨insertQuery, [SqlArg.ratArg k]⟩

/-- A transaction in which every step succeeds (test fixture). -/
def db0 : DBBehavior := ⟨true, fun _ => true, true⟩

/-- A raw GLL sentence — a type the `switch` does not handle (fixture). -/
def gllLine : String := "$GPGLL,4916.45,N,12311.12,W,225444,A*1D"

/-- A raw RMC sentence (fixture). -/
def rmcLine : String := "$GPRMC,103000.00,A,4916.45,N,12311.12,W,3,4,150624,,*1C"

/-- A fixture standing for `nmea.Parse`: decodes `rmcLine` to the
fragment `rmc0`, recognizes `gllLine` as a well-formed sentence of an
unhandled type, and fails on anything else. -/
def fixtureParse : String → Except String Sentence := fun l =>
  if l = gllLine then .ok (.other "GLL")
  else if l = rmcLine then .ok (.frag (.rmc rmc0))
  else .error "invalid sentence"

/-- `n` sampling cycles against the fixed store `goodData`, starting from
queue `q` (the Sampler goroutine's repeated `queueLocation()` calls). -/
def sampleCycles : Nat → List queuedOp → List queuedOp
  | 0, q => q
  | n + 1, q => sampleCycles n (queueLocation 0 goodData q).1

/-- `orLatest` with no older value is the newer value. -/
theorem orLatest_none (a : Option α) : orLatest a none = a := by
  cases a <;> rfl

/-- The program's `max (len - 100) len` is always `len`:
the slice bound applied after each enqueue keeps the whole queue. -/
theorem max_sub_toNat (n : Nat) : (max ((n : Int) - 100) (n : Int)).toNat = n := by
  unfold max
  split <;> omega

/-- When both needed fragments are present and the RMC date/time parses,
`queueLocation` appends exactly one insert op built from the fragments
(the trailing slice keeps the whole queue). -/
theorem queueLocation_present (now : Nat) (d : MifiNMEAData) (q : List queuedOp)
    (rmc : RMC) (gga : GGA) (t : GoTime)
    (hR : d.RMC = some rmc) (hG : d.GGA = some gga)
    (hT : timeParseRMCLayout (rmc.date ++ "T" ++ rmc.time) = some t) :
    queueLocation now d q =
      (q ++ [⟨insertQuery,
        [SqlArg.timeArg now, SqlArg.tsArg t,
         SqlArg.geomArg rmc.longitude rmc.latitude gga.altitude,
         SqlArg.ratArg rmc.speed, SqlArg.ratArg rmc.course]⟩], none) := by
  simp only [queueLocation, hR, hG, hT]
  rw [max_sub_toNat, List.take_length]

/-- Every op handed to `tx.Exec` comes from the front of the queue in
order, and a fully successful loop execs exactly the whole queue. -/
theorem execLoop_spec (ex : Nat → Bool) :
    ∀ (q : List queuedOp) (i : Nat),
      q.take (execLoop ex i q).2.1.length = (execLoop ex i q).2.1 ∧
      ((execLoop ex i q).2.2 = true → (execLoop ex i q).2.1 = q) := by
  intro q
  induction q with
  | nil => intro i; exact ⟨rfl, fun _ => rfl⟩
  | cons op rest ih =>
    intro i
    cases hex : ex i with
    | false => simp [execLoop, hex]
    | true =>
      have h := ih (i + 1)
      simp only [execLoop, hex, if_true, List.length_cons, List.take_succ_cons]
      exact ⟨by rw [h.1], fun hok => by rw [h.2 hok]⟩

/-- The RMC slot after a sequence of updates is the latest RMC update,
falling back to the starting slot. -/
theorem applyUpdates_RMC (us : List Fragment) : ∀ st : MifiNMEAData,
    (applyUpdates st us).RMC = orLatest (lastOf fragRMC us) st.RMC := by
  induction us with
  | nil => intro st; rfl
  | cons u us ih =>
    intro st
    rw [show applyUpdates st (u :: us) = applyUpdates (updateStore st u) us from rfl, ih]
    cases h : lastOf fragRMC us <;> cases u <;>
      simp [lastOf, orLatest, updateStore, fragRMC, h]

/-- The GGA slot after a sequence of updates is the latest GGA update,
falling back to the starting slot. -/
theorem applyUpdates_GGA (us : List Fragment) : ∀ st : MifiNMEAData,
    (applyUpdates st us).GGA = orLatest (lastOf fragGGA us) st.GGA := by
  induction us with
  | nil => intro st; rfl
  | cons u us ih =>
    intro st
    rw [show applyUpdates st (u :: us) = applyUpdates (updateStore st u) us from rfl, ih]
    cases h : lastOf fragGGA us <;> cases u <;>
      simp [lastOf, orLatest, updateStore, fragGGA, h]

/-- The GSA slot after a sequence of updates is the latest GSA update,
falling back to the starting slot. -/
theorem applyUpdates_GSA (us : List Fragment) : ∀ st : MifiNMEAData,
    (applyUpdates st us).GSA = orLatest (lastOf fragGSA us) st.GSA := by
  induction us with
  | nil => intro st; rfl
  | cons u us ih =>
    intro st
    rw [show applyUpdates st (u :: us) = applyUpdates (updateStore st u) us from rfl, ih]
    cases h : lastOf fragGSA us <;> cases u <;>
      simp [lastOf, orLatest, updateStore, fragGSA, h]

/-- The GSV slot after a sequence of updates is the latest GSV update,
falling back to the starting slot. -/
theorem applyUpdates_GSV (us : List Fragment) : ∀ st : MifiNMEAData,
    (applyUpdates st us).GSV = orLatest (lastOf fragGSV us) st.GSV := by
  induction us with
  | nil => intro st; rfl
  | cons u us ih =>
    intro st
    rw [show applyUpdates st (u :: us) = applyUpdates (updateStore st u) us from rfl, ih]
    cases h : lastOf fragGSV us <;> cases u <;>
      simp [lastOf, orLatest, updateStore, fragGSV, h]

/-- The VTG slot after a sequence of updates is the latest VTG update,
falling back to the starting slot. -/
theorem applyUpdates_VTG (us : List Fragment) : ∀ st : MifiNMEAData,
    (applyUpdates st us).VTG = orLatest (lastOf fragVTG us) st.VTG := by
  induction us with
  | nil => intro st; rfl
  | cons u us ih =>
    intro st
    rw [show applyUpdates st (u :: us) = applyUpdates (updateStore st u) us from rfl, ih]
    cases h : lastOf fragVTG us <;> cases u <;>
      simp [lastOf, orLatest, updateStore, fragVTG, h]

/-- Each sampling cycle against `goodData` grows the queue by exactly one
record: the retention slice never removes anything. -/
theorem sampleCycles_length : ∀ (n : Nat) (q : List queuedOp),
    (sampleCycles n q).length = q.length + n := by
  intro n
  induction n with
  | zero => intro q; rfl
  | succ n ih =>
    intro q
    have hq := queueLocation_present 0 goodData q rmc0 gga0
      ⟨2024, 6, 15, 10, 30, 0, 0⟩ rfl rfl (by decide)
    rw [show sampleCycles (n + 1) q
        = sampleCycles n (queueLocation 0 goodData q).1 from rfl, hq]
    simp [ih]
    omega

/-- The fabricated preamble is 69 bytes long. -/
theorem http09Response_length : http09Response.length = 69 := rfl

/-- C1: the claim states that a flush cycle whose insert fails
mid-transaction leaves every record queued at the start of the cycle in
the queue, in order.  The code violates this: with five queued records
and a store whose third `Exec` fails, the records already exec'd inside
the never-committed transaction have been popped, so the queue after the
cycle holds only the last three records. -/
theorem c1_failedFlushDropsExecedPrefix :
    pushToDB ⟨true, fun i => decide (i < 2), true⟩
        [opFix 1, opFix 2, opFix 3, opFix 4, opFix 5] =
      ⟨[opFix 3, opFix 4, opFix 5], [opFix 1, opFix 2, opFix 3],
        some FlushErr.execFailed⟩ ∧
    [opFix 3, opFix 4, opFix 5] ≠ [opFix 1, opFix 2, opFix 3, opFix 4, opFix 5] := by
  exact ⟨rfl, by decide⟩

/-- C2: the claim states the Outbound Queue never exceeds the retention
cap of 100, oldest dropped first.  The code violates this: the slice
bound `max(len(queue)-100, len(queue))` always equals `len(queue)`, so
after 101 sampling cycles the queue holds 101 records. -/
theorem c2_retentionCapNeverApplied :
    (sampleCycles 101 []).length = 101 ∧ 100 < (sampleCycles 101 []).length := by
  have h := sampleCycles_length 101 []
  simp only [List.length_nil, Nat.zero_add] at h
  exact ⟨h, by omega⟩

/-- C3 counterexample: the claim states a single bad line never makes the
read loop exit, never clears the Fix Store, and never enters Cooldown.
Concretely: alone, `rmcLine` is decoded and stored and the loop runs to
the connection-level end; but placing the unhandled sentence `gllLine`
before it makes the loop return the parse error immediately — `rmcLine`
is never consumed (the RMC slot stays empty) and the reconnect goroutine
clears the store before its cooldown sleep. -/
theorem c3_counterexample_badLineAborts :
    getGPSLoop fixtureParse emptyData [rmcLine] StreamEnd.eof =
      ({ emptyData with RMC := some rmc0 }, "reached end of connection to mifi") ∧
    getGPSLoop fixtureParse emptyData [gllLine, rmcLine] StreamEnd.eof =
      (emptyData, "failed to parse gps line: unexpected nmea data type: GLL") ∧
    streamCycle fixtureParse emptyData [gllLine, rmcLine] StreamEnd.eof = emptyData := by
  refine ⟨by decide, by decide, by decide⟩

/-- C3 amended: any non-empty line that fails to decode (malformed or of
an unhandled sentence type) makes the read loop return at once with the
wrapped parse error — lines after it are never read — and the cycle ends
with the Fix Store cleared, followed by the cooldown sleep, exactly as
for a connection-level fault. -/
theorem c3_badLineEndsStreamingCycle (p : String → Except String Sentence)
    (d : MifiNMEAData) (l : String) (ls : List String) (e : StreamEnd) (msg : String)
    (h1 : ¬ trimNulls l = "") (h2 : parseGPS p d (trimNulls l) = .error msg) :
    getGPSLoop p d (l :: ls) e = (d, "failed to parse gps line: " ++ msg) ∧
    streamCycle p d (l :: ls) e = emptyData := by
  have hloop : getGPSLoop p d (l :: ls) e = (d, "failed to parse gps line: " ++ msg) := by
    simp only [getGPSLoop]
    rw [if_neg h1, h2]
  exact ⟨hloop, by simp only [streamCycle, hloop]; rfl⟩

/-- Witness for the amended C3 theorem at the concrete unhandled
sentence `gllLine`. -/
theorem c3_badLineEndsStreamingCycle_witness :
    (¬ trimNulls gllLine = "") ∧
    parseGPS fixtureParse emptyData (trimNulls gllLine) =
      .error "unexpected nmea data type: GLL" ∧
    (getGPSLoop fixtureParse emptyData [gllLine] StreamEnd.eof =
        (emptyData, "failed to parse gps line: " ++ "unexpected nmea data type: GLL") ∧
      streamCycle fixtureParse emptyData [gllLine] StreamEnd.eof = emptyData) :=
  ⟨by decide, by rfl,
    c3_badLineEndsStreamingCycle fixtureParse emptyData gllLine [] StreamEnd.eof
      "unexpected nmea data type: GLL" (by decide) (by rfl)⟩

/-- C4: the claim states both the storage connection string and the maps
API key are required and the process exits if either is absent.  The
code violates half of it: a missing connection string panics, but the
second check tests `connStr` again instead of `mapsAPIKey`, so startup
proceeds with an empty maps API key. -/
theorem c4_missingMapsKeyNotFatal :
    startupCheck "" "some-key" =
      some "missing db connection string in env var MIFI_GPS_DBCONNSTR" ∧
    startupCheck "host=localhost dbname=gps" "" = none :=
  ⟨rfl, rfl⟩

/-- C5: last write wins per variant — after any sequence of fragment
updates applied to the initially empty store, each of the five slots
holds exactly the last update of that variant in the sequence (empty if
none occurred), and updates of other variants do not touch it. -/
theorem c5_lastWriteWinsPerVariant (us : List Fragment) :
    (applyUpdates emptyData us).RMC = lastOf fragRMC us ∧
    (applyUpdates emptyData us).GGA = lastOf fragGGA us ∧
    (applyUpdates emptyData us).GSA = lastOf fragGSA us ∧
    (applyUpdates emptyData us).GSV = lastOf fragGSV us ∧
    (applyUpdates emptyData us).VTG = lastOf fragVTG us :=
  ⟨(applyUpdates_RMC us emptyData).trans (orLatest_none _),
   (applyUpdates_GGA us emptyData).trans (orLatest_none _),
   (applyUpdates_GSA us emptyData).trans (orLatest_none _),
   (applyUpdates_GSV us emptyData).trans (orLatest_none _),
   (applyUpdates_VTG us emptyData).trans (orLatest_none _)⟩

/-- C6: whenever the RMC or the GGA slot is absent, a sampling cycle
returns `ErrNoDataToLog` and leaves the Outbound Queue unchanged. -/
theorem c6_samplingSkipCondition (now : Nat) (d : MifiNMEAData) (q : List queuedOp)
    (h : d.RMC = none ∨ d.GGA = none) :
    queueLocation now d q = (q, some SampleErr.noDataToLog) := by
  rcases h with h | h
  · simp only [queueLocation, h]
  · cases hR : d.RMC <;> simp only [queueLocation, hR, h]

/-- Witness for C6 at a store holding only a Satellite Geometry
fragment: sampling is skipped and the queue is unchanged. -/
theorem c6_samplingSkipCondition_witness :
    (gsaOnlyData.RMC = none ∨ gsaOnlyData.GGA = none) ∧
    queueLocation 0 gsaOnlyData [] = ([], some SampleErr.noDataToLog) :=
  ⟨Or.inl rfl, c6_samplingSkipCondition 0 gsaOnlyData [] (Or.inl rfl)⟩

/-- C7: with an RMC fragment dated "15/06/24" at "10:30:00.00" and a GGA
fragment with altitude 12.5 in the store, a sampling cycle appends
exactly one record whose device timestamp is 2024-06-15T10:30:00 and
whose point carries the fragment's longitude, latitude and the altitude
12.5. -/
theorem c7_timestampAndPointDerivation (now : Nat) (q : List queuedOp)
    (lat lon speed course glat glon : Rat) (gfq : String)
    (o3 : Option GSA) (o4 : Option GSV) (o5 : Option VTG) :
    queueLocation now
        ⟨some ⟨"15/06/24", "10:30:00.00", lat, lon, speed, course⟩,
         some ⟨glat, glon, gfq, 12.5⟩, o3, o4, o5⟩ q =
      (q ++ [⟨insertQuery,
        [SqlArg.timeArg now, SqlArg.tsArg ⟨2024, 6, 15, 10, 30, 0, 0⟩,
         SqlArg.geomArg lon lat 12.5,
         SqlArg.ratArg speed, SqlArg.ratArg course]⟩], none) :=
  queueLocation_present now _ q _ _ _ rfl rfl (by rfl)

/-- C8: `Clear()` followed by a snapshot yields all five slots empty,
whatever the prior state of the store. -/
theorem c8_clearThenSnapshotEmpty (d : MifiNMEAData) :
    (snapshot d.Clear).RMC = none ∧ (snapshot d.Clear).GGA = none ∧
    (snapshot d.Clear).GSA = none ∧ (snapshot d.Clear).GSV = none ∧
    (snapshot d.Clear).VTG = none :=
  ⟨rfl, rfl, rfl, rfl, rfl⟩

/-- C9: on a flush cycle with a non-empty queue, the inserts issued to
the transaction are exactly the front of the queue in enqueue order
(oldest first), and when the cycle reports no error every queued record
was inserted, in order. -/
theorem c9_flushOrdering (db : DBBehavior) (q : List queuedOp) (hq : q ≠ []) :
    q.take (pushToDB db q).issued.length = (pushToDB db q).issued ∧
    ((pushToDB db q).err = none → (pushToDB db q).issued = q) := by
  cases hb : db.beginOk with
  | false => simp [pushToDB, hb]
  | true =>
    have hs := execLoop_spec db.execOk q 0
    cases hok : (execLoop db.execOk 0 q).2.2 <;>
      cases hc : db.commitOk <;>
        simp_all [pushToDB, hb, hok, hc]

/-- Witness for C9: a healthy transaction over three queued records
issues exactly those three inserts in order. -/
theorem c9_flushOrdering_witness :
    ([opFix 1, opFix 2, opFix 3] : List queuedOp) ≠ [] ∧
    ([opFix 1, opFix 2, opFix 3].take
        (pushToDB db0 [opFix 1, opFix 2, opFix 3]).issued.length
        = (pushToDB db0 [opFix 1, opFix 2, opFix 3]).issued ∧
      ((pushToDB db0 [opFix 1, opFix 2, opFix 3]).err = none →
        (pushToDB db0 [opFix 1, opFix 2, opFix 3]).issued
          = [opFix 1, opFix 2, opFix 3])) :=
  ⟨by decide, c9_flushOrdering db0 [opFix 1, opFix 2, opFix 3] (by decide)⟩

/-- C10 counterexample: the claim calls the fabricated preamble 71 bytes
and says the first read always reports 71; in fact the preamble is 69
bytes and the first read reports 69. -/
theorem c10_counterexample_preambleIs69 :
    (connRead trivialConn ⟨false⟩ []).2.2 = 69 ∧
    (connRead trivialConn ⟨false⟩ []).2.2 ≠ 71 := by
  exact ⟨rfl, by decide⟩

/-- C10 amended: on the first read the 69-byte fabricated preamble is
copied into the caller's buffer and the reported count is always 69
regardless of the buffer's length, so any buffer shorter than 69 bytes
receives only its own length in bytes while 69 is reported; every
subsequent read delegates to the underlying connection unmodified. -/
theorem c10_firstReadFabricatedPreamble (u : List Char → List Char × Nat)
    (b b2 : List Char) (h : b.length < 69) :
    (connRead u ⟨false⟩ b2).2.2 = 69 ∧
    (connRead u ⟨false⟩ b2).1 = ⟨true⟩ ∧
    (connRead u ⟨false⟩ b).2.1 = http09Response.take b.length ∧
    b.length < (connRead u ⟨false⟩ b).2.2 ∧
    (connRead u ⟨true⟩ b2).2 = u b2 ∧
    (connRead u ⟨true⟩ b2).1 = ⟨true⟩ := by
  refine ⟨rfl, rfl, ?_, ?_, rfl, rfl⟩
  · show goCopy b http09Response = http09Response.take b.length
    rw [goCopy, http09Response_length, Nat.min_eq_left (Nat.le_of_lt h),
      List.drop_length, List.append_nil]
  · show b.length < http09Response.length
    rw [http09Response_length]
    exact h

/-- Witness for the amended C10 theorem at a two-byte buffer. -/
theorem c10_firstReadFabricatedPreamble_witness :
    (['a', 'b'] : List Char).length < 69 ∧
    ((connRead trivialConn ⟨false⟩ []).2.2 = 69 ∧
      (connRead trivialConn ⟨false⟩ []).1 = ⟨true⟩ ∧
      (connRead trivialConn ⟨false⟩ ['a', 'b']).2.1
        = http09Response.take (['a', 'b'] : List Char).length ∧
      (['a', 'b'] : List Char).length < (connRead trivialConn ⟨false⟩ ['a', 'b']).2.2 ∧
      (connRead trivialConn ⟨true⟩ []).2 = trivialConn [] ∧
      (connRead trivialConn ⟨true⟩ []).1 = ⟨true⟩) :=
  ⟨by decide, c10_firstReadFabricatedPreamble trivialConn ['a', 'b'] [] (by decide)⟩

end MifiGps
